import Mathlib

/-
Verification of src/LLM_Usage/SQL_Ollama/sqlite_schema_explorer.py.

The Python program is embedded shallowly: pure fragments become Lean
functions on `List Char` / `String`, SQLite-driver and HTTP interactions
are passed in as explicit outcome values (the driver and the generation
backend are external collaborators), and exceptions become explicit
outcome constructors.  Machine strings are modelled as their code-point
sequences, which is what Python string operations act on.
-/

/-- A Python value as it travels through the explorer: SQLite cells and
dictionary values.  REAL columns (floats) do not occur in any claim and
are omitted. -/
inductive PyVal where
  | int (n : Int)
  | str (s : String)
  | bytes (bs : List Nat)
  | none
deriving DecidableEq

/-- Whether a value is a bytes/bytearray object (`isinstance(row[i], (bytes, bytearray))`). -/
def PyVal.isBytes : PyVal → Bool
  | .bytes _ => true
  | _ => false

/-- Python `str.strip()` whitespace for the ASCII range: space, tab,
newline, carriage return, vertical tab, form feed. -/
def isPyWs (c : Char) : Bool :=
  c = ' ' || c = '\t' || c = '\n' || c = '\r' || c = '\x0b' || c = '\x0c'

/-- Remove trailing whitespace (the right half of Python `strip`). -/
def dropTrailingWs (l : List Char) : List Char :=
  (l.reverse.dropWhile isPyWs).reverse

/-- Python `str.strip()` on the code-point sequence. -/
def pyStripCore (l : List Char) : List Char :=
  dropTrailingWs (l.dropWhile isPyWs)

/-- Python `str.strip()`. -/
def pyStrip (s : String) : String :=
  String.mk (pyStripCore s.data)

/-- The code-fence token, Python literal of three backticks. -/
def fence : List Char := "```".data

/-- The sql-tagged code-fence opener, Python literal of three backticks followed by sql. -/
def sqlFence : List Char := "```sql".data

/-- Python `s.replace(old, new, 1)`: replace the first occurrence of
`old` (if any) with `new`; with `old = ""` this inserts `new` at the
front, exactly as in CPython. -/
def replaceFirstCore (s old new : List Char) : List Char :=
  if old.isPrefixOf s then new ++ s.drop old.length
  else
    match s with
    | [] => []
    | c :: rest => c :: replaceFirstCore rest old new

/-- Scan for the rightmost start index `≤ i` at which `pat` occurs in `s`. -/
def rfindFrom (s pat : List Char) : Nat → Option Nat
  | 0 => if pat.isPrefixOf s then some 0 else none
  | i + 1 => if pat.isPrefixOf (s.drop (i + 1)) then some (i + 1) else rfindFrom s pat i

/-- Python `s.rfind(pat)`: the start index of the rightmost occurrence,
`none` standing for Python's `-1`. -/
def pyRfind (s pat : List Char) : Option Nat :=
  rfindFrom s pat s.length

/-- The opening-fence removal of `natural_language_to_sql` (lines
293-297): `replace("```sql", "", 1)` when the text starts with
"```sql", else `replace("```", "", 1)` when it starts with "```",
re-stripping afterwards. -/
def sanitizeOpen (s1 : List Char) : List Char :=
  if sqlFence.isPrefixOf s1 then pyStripCore (replaceFirstCore s1 sqlFence [])
  else if fence.isPrefixOf s1 then pyStripCore (replaceFirstCore s1 fence [])
  else s1

/-- The closing-fence removal (lines 299-300): when the text ends with
"```", cut at `rfind("```")` and re-strip.  The `Option.none` arm is
Python's `s[:-1]` for rfind `= -1`; it is unreachable under the
endswith guard. -/
def sanitizeClose (s2 : List Char) : List Char :=
  if fence.isSuffixOf s2 then
    match pyRfind s2 fence with
    | some k => pyStripCore (s2.take k)
    | Option.none => pyStripCore (s2.take (s2.length - 1))
  else s2

/-- The response clean-up of `natural_language_to_sql` (the
QuerySanitizer), lines 290-302 of sqlite_schema_explorer.py: strip,
remove one leading fence opener, remove the trailing fence. -/
def sanitizeCore (raw : List Char) : List Char :=
  sanitizeClose (sanitizeOpen (pyStripCore raw))

/-- The QuerySanitizer on strings. -/
def sanitize (s : String) : String :=
  String.mk (sanitizeCore s.data)

/-- Whether `pat` occurs as a contiguous block anywhere in the list
(decidable "the text contains a code fence"). -/
def occursIn (pat : List Char) : List Char → Bool
  | [] => pat.isPrefixOf ([] : List Char)
  | c :: rest => pat.isPrefixOf (c :: rest) || occursIn pat rest

/-- Modelled from the claim's words, for comparison with `sanitizeCore`:
trim; only when the trimmed text begins with a fence opener, remove one
opening fence (with its sql tag when present) and, if the remainder ends
with a closing fence, that closing fence, re-trimming.  Unlike the code,
no trailing fence is touched when the text does not begin with one. -/
def sanitizeClaimedCore (raw : List Char) : List Char :=
  let t := pyStripCore raw
  if sqlFence.isPrefixOf t then
    let u := pyStripCore (t.drop sqlFence.length)
    if fence.isSuffixOf u then pyStripCore (u.take (u.length - fence.length)) else u
  else if fence.isPrefixOf t then
    let u := pyStripCore (t.drop fence.length)
    if fence.isSuffixOf u then pyStripCore (u.take (u.length - fence.length)) else u
  else t

/-- The claim-described sanitizer on strings. -/
def sanitizeClaimed (s : String) : String :=
  String.mk (sanitizeClaimedCore s.data)

/-- Opening-fence removal in the amended claim's words: drop one
opening fence token ("```sql" or "```") from the front, re-trim. -/
def amendedOpen (t : List Char) : List Char :=
  if sqlFence.isPrefixOf t then pyStripCore (t.drop sqlFence.length)
  else if fence.isPrefixOf t then pyStripCore (t.drop fence.length)
  else t

/-- Closing-fence removal in the amended claim's words: drop one
closing fence from the very end, re-trim. -/
def amendedClose (u : List Char) : List Char :=
  if fence.isSuffixOf u then pyStripCore (u.take (u.length - fence.length)) else u

/-- The amended description of the sanitizer: trim; remove one opening
fence when the trimmed text begins with one; then, regardless of
whether an opening fence was found, remove the final closing fence when
the text ends with one; re-trim after each removal. -/
def sanitizeAmendedCore (raw : List Char) : List Char :=
  amendedClose (amendedOpen (pyStripCore raw))

/-- The amended-description sanitizer on strings. -/
def sanitizeAmended (s : String) : String :=
  String.mk (sanitizeAmendedCore s.data)

/-- Outcome of the HTTP round trip inside `OllamaClient.generate`:
either the parsed `response` field of the JSON body (defaulting to ""),
or an exception (connection error, timeout, non-2xx status via
`raise_for_status`, JSON decode error) with its `str(e)` text. -/
inductive HttpOutcome where
  | ok (response : String)
  | raises (msg : String)
deriving DecidableEq

/-- `OllamaClient.generate` (lines 70-89): returns the generated text on
success and the string `"Error: " ++ str(e)` when any exception is
caught; it never propagates the exception. -/
def generate (outcome : HttpOutcome) : String :=
  match outcome with
  | .ok response => response
  | .raises msg => "Error: " ++ msg

/-- The SQLite connection as `execute_query` can observe and affect it:
whether it is open, and how many `commit()` calls have completed. -/
structure Conn where
  isOpen : Bool
  commits : Nat
deriving DecidableEq

/-- Outcome of `cursor.execute(query)` as reported by the driver: on
success, the optional column metadata (`cursor.description`), the rows
`fetchall` would return, and `cursor.rowcount`; otherwise the exception
text. -/
inductive ExecOutcome where
  | success (description : Option (List String)) (fetched : List (List PyVal)) (rowcount : Int)
  | raises (msg : String)
deriving DecidableEq

/-- Outcome of `connection.commit()`. -/
inductive CommitOutcome where
  | ok
  | raises (msg : String)
deriving DecidableEq

/-- The three result dictionaries `execute_query` can return:
`{"type": "SELECT", "columns", "rows", "row_count"}`,
`{"type": "UPDATE", "affected_rows"}`, `{"type": "ERROR", "error"}`.
A row dictionary is an association list in column order. -/
inductive QueryResult where
  | Rows (columns : List String) (rows : List (List (String × PyVal))) (row_count : Nat)
  | Mutation (affected_rows : Int)
  | Failure (error : String)
deriving DecidableEq

/-- Cell conversion inside the SELECT branch: a bytes value of length n
becomes the placeholder string, every other value is kept. -/
def convertCell : PyVal → PyVal
  | .bytes bs => .str ("<binary data, " ++ toString bs.length ++ " bytes>")
  | v => v

/-- One iteration of the row loop: pair each column name with the
converted cell (`row_dict[col] = ...`; the cursor returns one cell per
column, so pairing columns with the row positionally is exact). -/
def buildRow (columns : List String) (row : List PyVal) : List (String × PyVal) :=
  (columns.zip row).map (fun p => (p.1, convertCell p.2))

/-- `SQLiteExplorer.execute_query` (lines 229-268).  The driver's
behaviour on the submitted query string is passed in as the two outcome
values.  With column metadata present the rows are collected and
converted; with no metadata the transaction is committed and the
driver-reported `cursor.rowcount` returned; any exception becomes the
ERROR dictionary.  The connection is returned as the call leaves it:
it is never closed here, and only a completed commit changes it. -/
def execute_query (conn : Conn) (exec : ExecOutcome) (commit : CommitOutcome) :
    QueryResult × Conn :=
  match exec with
  | .raises msg => (.Failure msg, conn)
  | .success (some columns) fetched _ =>
      let results := fetched.map (buildRow columns)
      (.Rows columns results results.length, conn)
  | .success Option.none _ rowcount =>
      match commit with
      | .ok => (.Mutation rowcount, { conn with commits := conn.commits + 1 })
      | .raises msg => (.Failure msg, conn)

/-- One row of `PRAGMA table_info(t)` as the driver returns it:
`(cid, name, type, notnull, dflt_value, pk)`.  `pk` is the 1-based
position inside the primary key, 0 for non-key columns. -/
structure ColRow where
  cid : Nat
  name : String
  type : String
  notnull : Nat
  dflt_value : Option String
  pk : Nat
deriving DecidableEq

/-- One row of `PRAGMA foreign_key_list(t)`:
`(id, seq, table, from, to, on_update, on_delete, match)`. -/
structure FkRow where
  id : Nat
  seq : Nat
  ref_table : String
  from_col : String
  to_col : String
  on_update : String
  on_delete : String
  fk_match : String
deriving DecidableEq

/-- The driver's reply to the two PRAGMA queries for one table: either
both result sets, or an exception (locked / corrupted table) with its
`str(e)` text. -/
inductive TableFetch where
  | ok (columns : List ColRow) (fks : List FkRow)
  | raises (msg : String)
deriving DecidableEq

/-- One `sqlite_master` table entry together with the driver's behaviour
for it: its PRAGMA reply and its `SELECT COUNT(*)` value.  Giving
`count` the type `Nat` restricts this model to databases on which every
per-table COUNT query succeeds; in the code that query runs outside any
try block (lines 222-224, table name interpolated unquoted), so a
failing COUNT raises uncaught — the general embedding with a fallible
count is `DBExc` / `get_schema_for_ollama_exc` below. -/
structure TableData where
  name : String
  fetch : TableFetch
  count : Nat
deriving DecidableEq

/-- The connected database as the explorer observes it:
`os.path.basename(self.db_file)` and the `sqlite_master` table rows in
their stored order. -/
structure DB where
  basename : String
  tables : List TableData
deriving DecidableEq

/-- The column dictionary built by `get_table_structure`. -/
structure Column where
  name : String
  type : String
  not_null : Bool
  default : Option String
  primary_key : Bool
deriving DecidableEq

/-- The foreign-key dictionary built by `get_table_structure`. -/
structure ForeignKey where
  column : String
  ref_table : String
  ref_column : String
deriving DecidableEq

/-- The dictionary `get_table_structure` returns. -/
structure TableStructure where
  columns : List Column
  foreign_keys : List ForeignKey
deriving DecidableEq

/-- SQL `name LIKE 'sqlite_%'`: ASCII-case-insensitive, `_` matching
exactly one character, `%` any tail — so: at least 7 characters and the
first 6 are "sqlite" up to case. -/
def asciiLower (c : Char) : Char :=
  if 'A' ≤ c && c ≤ 'Z' then Char.ofNat (c.toNat + 32) else c

/-- The pattern prefix of `LIKE 'sqlite_%'`. -/
def sqlitePat : List Char := ['s', 'q', 'l', 'i', 't', 'e']

/-- Test for `name LIKE 'sqlite_%'`. -/
def likeSqliteUnderscore (name : String) : Bool :=
  sqlitePat.isPrefixOf (name.data.map asciiLower) && decide (7 ≤ name.data.length)

/-- `SQLiteExplorer.get_tables` (lines 117-127): the names of the
`type='table'` entries of `sqlite_master` whose name is NOT LIKE
'sqlite_%', in stored order. -/
def get_tables (db : DB) : List String :=
  (db.tables.filter (fun t => !likeSqliteUnderscore t.name)).map (fun t => t.name)

/-- Column-dictionary construction of `get_table_structure`:
`not_null == 1` and `is_pk == 1` as in the code (a composite-key column
with pk position 2 is reported as not primary key, faithfully). -/
def mkColumn (r : ColRow) : Column :=
  { name := r.name, type := r.type, not_null := decide (r.notnull = 1),
    default := r.dflt_value, primary_key := decide (r.pk = 1) }

/-- Foreign-key-dictionary construction of `get_table_structure`. -/
def mkForeignKey (r : FkRow) : ForeignKey :=
  { column := r.from_col, ref_table := r.ref_table, ref_column := r.to_col }

/-- `SQLiteExplorer.get_table_structure` (lines 129-171): the structure
dictionary plus the warning lines printed.  Any exception is caught and
converted to an empty structure with a printed warning.  A name that
matches no table makes both PRAGMA queries return no rows, hence an
empty structure with no warning. -/
def get_table_structure (db : DB) (table_name : String) : TableStructure × List String :=
  match db.tables.find? (fun t => decide (t.name = table_name)) with
  | some t =>
      match t.fetch with
      | .ok colRows fkRows =>
          ({ columns := colRows.map mkColumn, foreign_keys := fkRows.map mkForeignKey }, [])
      | .raises msg =>
          ({ columns := [], foreign_keys := [] },
           ["Error retrieving structure for table " ++ table_name ++ ": " ++ msg])
  | Option.none => ({ columns := [], foreign_keys := [] }, [])

/-- The `SELECT COUNT(*) FROM t` value used by `get_schema_for_ollama`
(lines 222-224), on the succeeding-counts restriction of `DB`; the
fallible version is `rowCountExc` below.  The loop only queries names
coming from `get_tables`, so the missing-table arm is unreachable
there. -/
def rowCount (db : DB) (table_name : String) : Nat :=
  match db.tables.find? (fun t => decide (t.name = table_name)) with
  | some t => t.count
  | Option.none => 0

/-- Concatenation of a list of strings; models the `description += ...`
accumulation (string concatenation is associative, so the left-to-right
`+=` order and this right fold agree). -/
def concatAll (l : List String) : String := l.foldr (· ++ ·) ""

/-- One `  - name: type (tags)` line of the schema description.  The tag
list is PRIMARY KEY, NOT NULL, DEFAULT v in that order, joined with
", " and parenthesised, or absent when empty. -/
def columnAttributes (col : Column) : List String :=
  (if col.primary_key then ["PRIMARY KEY"] else [])
    ++ (if col.not_null then ["NOT NULL"] else [])
    ++ (match col.default with
        | some d => ["DEFAULT " ++ d]
        | Option.none => [])

/-- The rendered column line. -/
def columnLine (col : Column) : String :=
  "  - " ++ col.name ++ ": " ++ col.type
    ++ (if (columnAttributes col).isEmpty then ""
        else " (" ++ String.intercalate ", " (columnAttributes col) ++ ")")
    ++ "\n"

/-- The rendered foreign-key line `  - column -> ref_table(ref_column)`. -/
def fkLine (fk : ForeignKey) : String :=
  "  - " ++ fk.column ++ " -> " ++ fk.ref_table ++ "(" ++ fk.ref_column ++ ")" ++ "\n"

/-- The loop body of `get_schema_for_ollama` (lines 197-225) for one
table name: each `++` mirrors one `description +=` statement. -/
def tableSection (db : DB) (table_name : String) : String :=
  ("Table: " ++ table_name ++ "\n") ++ "Columns:\n"
    ++ concatAll (((get_table_structure db table_name).1.columns).map columnLine)
    ++ (if ((get_table_structure db table_name).1.foreign_keys).isEmpty then ""
        else "Foreign Keys:\n"
          ++ concatAll (((get_table_structure db table_name).1.foreign_keys).map fkLine))
    ++ ("Row count: " ++ toString (rowCount db table_name) ++ "\n\n")

/-- `SQLiteExplorer.get_schema_for_ollama` (lines 192-227) on the
succeeding-counts restriction of `DB`; `get_schema_for_ollama_exc`
below is the general embedding in which a failing COUNT aborts the
walk, as the uncaught exception does in the code. -/
def get_schema_for_ollama (db : DB) : String :=
  ("Database: " ++ db.basename ++ "\n\n")
    ++ concatAll ((get_tables db).map (tableSection db))

/-- A table of the SchemaSnapshot of spec §3: name, introspected
structure, captured row count. -/
structure TableDescriptor where
  name : String
  struct : TableStructure
  count : Nat
deriving DecidableEq

/-- The SchemaIntrospector: everything `get_schema_for_ollama` reads
from the database, captured as one snapshot value. -/
def introspect (db : DB) : String × List TableDescriptor :=
  (db.basename,
   (get_tables db).map (fun t => ⟨t, (get_table_structure db t).1, rowCount db t⟩))

/-- The SchemaDescriptionBuilder on one snapshot table: the same
rendering as `tableSection`, as a function of the descriptor alone. -/
def descriptorSection (td : TableDescriptor) : String :=
  ("Table: " ++ td.name ++ "\n") ++ "Columns:\n"
    ++ concatAll (td.struct.columns.map columnLine)
    ++ (if td.struct.foreign_keys.isEmpty then ""
        else "Foreign Keys:\n" ++ concatAll (td.struct.foreign_keys.map fkLine))
    ++ ("Row count: " ++ toString td.count ++ "\n\n")

/-- The SchemaDescriptionBuilder: a pure function of the snapshot. -/
def build_description (snap : String × List TableDescriptor) : String :=
  ("Database: " ++ snap.1 ++ "\n\n") ++ concatAll (snap.2.map descriptorSection)

/-- Hexadecimal digit of a value below 16 (lower-case, as CPython
renders byte escapes): code point 48 is the digit zero, 97 the letter a. -/
def hexDigitChar (n : Nat) : Char :=
  if n < 10 then Char.ofNat (48 + n) else Char.ofNat (87 + n)

/-- One byte inside Python's `str(bytes)` rendering (the single-quoted
repr).  Cells reaching the formatter from `execute_query` never hold
bytes, so this arm is never exercised by the pipeline. -/
def pyByteRepr (b : Nat) : String :=
  if b = 9 then "\\t" else if b = 10 then "\\n" else if b = 13 then "\\r"
  else if b = 39 || b = 92 then String.mk ['\\', Char.ofNat b]
  else if 32 ≤ b && b ≤ 126 then String.mk [Char.ofNat b]
  else String.mk ['\\', 'x', hexDigitChar (b / 16), hexDigitChar (b % 16)]

/-- Python `str(v)` for the values that can sit in a result row. -/
def pyStr : PyVal → String
  | .int n => toString n
  | .str s => s
  | .bytes bs => "b'" ++ concatAll (bs.map pyByteRepr) ++ "'"
  | .none => "None"

/-- Python `row.get(col, "")` on a row dictionary: `execute_query`
builds the dictionary by successive assignment, so for a repeated column
name the last entry wins; a missing key yields `""`. -/
def rowGet (row : List (String × PyVal)) (col : String) : PyVal :=
  match (row.filter (fun p => decide (p.1 = col))).getLast? with
  | some p => p.2
  | Option.none => .str ""

/-- Maximum of a list of naturals (Python `max` over a non-empty
generator; the extra 0 floor is vacuous for the non-empty lists the
formatter feeds it). -/
def listMax : List Nat → Nat
  | [] => 0
  | x :: xs => max x (listMax xs)

/-- Python `s.ljust(w)`. -/
def ljust (s : String) (w : Nat) : String :=
  s ++ String.mk (List.replicate (w - s.data.length) ' ')

/-- A run of `w` dashes, Python `"-" * w`. -/
def dashes (w : Nat) : String := String.mk (List.replicate w '-')

/-- `format_table` (lines 304-332) on the fields of a SELECT result
dictionary (the only shape `main` passes it; the dictionary itself is
never empty, so Python's `not data` test is vacuous and the empty-rows /
empty-columns tests remain). -/
def format_table (columns : List String) (rows : List (List (String × PyVal))) : String :=
  if rows.isEmpty || columns.isEmpty then "No data to display"
  else
    let width := fun col =>
      max col.data.length (listMax (rows.map (fun r => (pyStr (rowGet r col)).data.length)))
    let separator := "+-" ++ String.intercalate "-+-" (columns.map (fun c => dashes (width c))) ++ "-+"
    let header := "| " ++ String.intercalate " | " (columns.map (fun c => ljust c (width c))) ++ " |"
    let formattedRows := rows.map (fun r =>
      "| " ++ String.intercalate " | " (columns.map (fun c => ljust (pyStr (rowGet r c)) (width c))) ++ " |")
    String.intercalate "\n" ([separator, header, separator] ++ formattedRows ++ [separator])

/-- Outcome of the unguarded `SELECT COUNT(*) FROM {table_name}` of
`get_schema_for_ollama` (lines 222-224): the count, or the exception the
driver raises (locked database, corrupted table, a name that does not
parse unquoted).  Nothing in the code catches this exception. -/
inductive CountOutcome where
  | ok (n : Nat)
  | raises (msg : String)
deriving DecidableEq

/-- A `sqlite_master` table entry in the general model: its PRAGMA
reply and the outcome of its COUNT query.  Unlike `TableData`, the
count can fail — as it does for exactly the kinds of tables whose
PRAGMA retrieval fails. -/
structure TableDataExc where
  name : String
  fetch : TableFetch
  count : CountOutcome
deriving DecidableEq

/-- The connected database in the general model. -/
structure DBExc where
  basename : String
  tables : List TableDataExc
deriving DecidableEq

/-- `SQLiteExplorer.get_tables` on the general model. -/
def get_tables_exc (db : DBExc) : List String :=
  (db.tables.filter (fun t => !likeSqliteUnderscore t.name)).map (fun t => t.name)

/-- `SQLiteExplorer.get_table_structure` on the general model: identical
to `get_table_structure` — its try block catches every exception, so
this function is total even when the table is broken. -/
def get_table_structure_exc (db : DBExc) (table_name : String) : TableStructure × List String :=
  match db.tables.find? (fun t => decide (t.name = table_name)) with
  | some t =>
      match t.fetch with
      | .ok colRows fkRows =>
          ({ columns := colRows.map mkColumn, foreign_keys := fkRows.map mkForeignKey }, [])
      | .raises msg =>
          ({ columns := [], foreign_keys := [] },
           ["Error retrieving structure for table " ++ table_name ++ ": " ++ msg])
  | Option.none => ({ columns := [], foreign_keys := [] }, [])

/-- The unguarded COUNT query (lines 222-224): its value, or the
uncaught exception text.  A name missing from `sqlite_master` makes
SQLite raise "no such table" (unreachable from `get_tables_exc`). -/
def rowCountExc (db : DBExc) (table_name : String) : Except String Nat :=
  match db.tables.find? (fun t => decide (t.name = table_name)) with
  | some t =>
      match t.count with
      | .ok n => Except.ok n
      | .raises msg => Except.error msg
  | Option.none => Except.error ("no such table: " ++ table_name)

/-- One iteration of the `get_schema_for_ollama` loop in the general
model.  In the code the structure lines are appended before the COUNT
runs, but `get_table_structure` cannot raise and the accumulated text is
discarded when the COUNT raises, so the observable result is the
section text on success and the exception otherwise. -/
def tableSectionExc (db : DBExc) (table_name : String) : Except String String :=
  match rowCountExc db table_name with
  | Except.error e => Except.error e
  | Except.ok n =>
      Except.ok (("Table: " ++ table_name ++ "\n") ++ "Columns:\n"
        ++ concatAll (((get_table_structure_exc db table_name).1.columns).map columnLine)
        ++ (if ((get_table_structure_exc db table_name).1.foreign_keys).isEmpty then ""
            else "Foreign Keys:\n"
              ++ concatAll (((get_table_structure_exc db table_name).1.foreign_keys).map fkLine))
        ++ ("Row count: " ++ toString n ++ "\n\n"))

/-- The table loop of `get_schema_for_ollama` in the general model: the
first uncaught exception aborts the whole walk — tables after it are
never visited. -/
def sectionsExc (db : DBExc) : List String → Except String String
  | [] => Except.ok ""
  | t :: rest =>
      match tableSectionExc db t with
      | Except.error e => Except.error e
      | Except.ok sec =>
          match sectionsExc db rest with
          | Except.error e => Except.error e
          | Except.ok s => Except.ok (sec ++ s)

/-- `SQLiteExplorer.get_schema_for_ollama` (lines 192-227) in the
general model: the description text, or the uncaught exception raised
by the first failing COUNT query. -/
def get_schema_for_ollama_exc (db : DBExc) : Except String String :=
  match sectionsExc db (get_tables_exc db) with
  | Except.error e => Except.error e
  | Except.ok body => Except.ok (("Database: " ++ db.basename ++ "\n\n") ++ body)

lemma convertCell_not_bytes (v : PyVal) : PyVal.isBytes (convertCell v) = false := by
  cases v <;> rfl

/-- Claim C1: when the driver reports no result-set shape (no column
metadata), `execute_query` commits the transaction and returns the
Mutation (UPDATE) dictionary carrying the driver-reported affected-row
count; in particular a driver-reported count of 3 (an `UPDATE t SET x=1`
matching 3 rows) yields `Mutation 3`. -/
theorem execute_query_mutation_commits :
    (∀ (conn : Conn) (fetched : List (List PyVal)) (rc : Int),
        execute_query conn (.success Option.none fetched rc) .ok
          = (QueryResult.Mutation rc, { conn with commits := conn.commits + 1 }))
    ∧ (execute_query ⟨true, 0⟩ (.success Option.none [] 3) .ok).1 = QueryResult.Mutation 3 := by
  constructor
  · intro conn fetched rc
    rfl
  · rfl

/-- Claim C2: an exception raised during preparation/execution or during
commit is caught and returned as the Failure dictionary carrying the
non-empty error text, while the connection value is left untouched, so a
subsequent query behaves exactly as it would on a fresh call. -/
theorem execute_query_failure_keeps_connection (conn : Conn) (msg : String)
    (commitOut : CommitOutcome) (h : msg ≠ "") :
    execute_query conn (.raises msg) commitOut = (QueryResult.Failure msg, conn)
    ∧ (∀ (fetched : List (List PyVal)) (rc : Int),
        execute_query conn (.success Option.none fetched rc) (.raises msg)
          = (QueryResult.Failure msg, conn))
    ∧ (∀ e, (execute_query conn (.raises msg) commitOut).1 = QueryResult.Failure e → e ≠ "")
    ∧ (execute_query conn (.raises msg) commitOut).2.isOpen = conn.isOpen
    ∧ (∀ (exec2 : ExecOutcome) (commit2 : CommitOutcome),
        execute_query (execute_query conn (.raises msg) commitOut).2 exec2 commit2
          = execute_query conn exec2 commit2) := by
  refine ⟨rfl, fun fetched rc => rfl, ?_, rfl, fun exec2 commit2 => rfl⟩
  intro e he
  have : msg = e := by
    simpa [execute_query] using he
  simpa [← this] using h

theorem execute_query_failure_keeps_connection_witness :
    execute_query ⟨true, 0⟩ (.raises "near \"SELEC\": syntax error") .ok
      = (QueryResult.Failure "near \"SELEC\": syntax error", (⟨true, 0⟩ : Conn))
    ∧ execute_query (execute_query ⟨true, 0⟩ (.raises "near \"SELEC\": syntax error") .ok).2
        (.success (some ["id"]) [[PyVal.int 1]] (-1)) .ok
      = execute_query ⟨true, 0⟩ (.success (some ["id"]) [[PyVal.int 1]] (-1)) .ok := by
  have h := execute_query_failure_keeps_connection ⟨true, 0⟩ "near \"SELEC\": syntax error"
    .ok (by decide)
  exact ⟨h.1, h.2.2.2.2 (.success (some ["id"]) [[PyVal.int 1]] (-1)) .ok⟩

/-- Claim C8: `OllamaClient.generate` never raises past the caller: on
any transport or protocol failure it returns the plain string
`"Error: " ++ str(e)` embedding the failure description, and on success
it returns the backend's response text verbatim, so the orchestrator
always receives a string value. -/
theorem generate_never_raises :
    (∀ msg : String, generate (HttpOutcome.raises msg) = "Error: " ++ msg)
    ∧ (∀ r : String, generate (HttpOutcome.ok r) = r) :=
  ⟨fun _ => rfl, fun _ => rfl⟩

/-- Claim C10: every Rows (SELECT) dictionary `execute_query` returns
carries a `row_count` equal to the length of its `rows` list. -/
theorem execute_query_row_count_invariant (conn : Conn) (exec : ExecOutcome)
    (commitOut : CommitOutcome) (cols : List String)
    (rows : List (List (String × PyVal))) (n : Nat)
    (h : (execute_query conn exec commitOut).1 = QueryResult.Rows cols rows n) :
    n = rows.length := by
  cases exec with
  | raises msg => simp [execute_query] at h
  | success descr fetched rc =>
    cases descr with
    | some cs =>
      simp only [execute_query] at h
      obtain ⟨-, hrows, hn⟩ := QueryResult.Rows.inj h
      subst hn
      subst hrows
      rfl
    | none => cases commitOut <;> simp [execute_query] at h

theorem execute_query_row_count_invariant_witness :
    (1 : Nat) = [[("id", PyVal.int 7)]].length :=
  execute_query_row_count_invariant ⟨true, 0⟩ (.success (some ["id"]) [[PyVal.int 7]] 0) .ok
    ["id"] [[("id", PyVal.int 7)]] 1 (by decide)

/-- Claim C4: for every result-producing query, the Rows dictionary
holds exactly the positionally converted rows, no cell of any returned
row is a bytes value, and a source cell holding bytes of length N
appears in its row dictionary as the placeholder string mentioning N
bytes — the raw bytes never appear. -/
theorem execute_query_rows_no_raw_bytes (conn : Conn) (cols : List String)
    (fetched : List (List PyVal)) (rc : Int) (commitOut : CommitOutcome) :
    (execute_query conn (.success (some cols) fetched rc) commitOut).1
      = QueryResult.Rows cols (fetched.map (buildRow cols)) (fetched.map (buildRow cols)).length
    ∧ (∀ row ∈ fetched.map (buildRow cols), ∀ p ∈ row, PyVal.isBytes p.2 = false)
    ∧ (∀ rowIn ∈ fetched, ∀ (c : String) (bs : List Nat),
        (c, PyVal.bytes bs) ∈ cols.zip rowIn →
        (c, PyVal.str ("<binary data, " ++ toString bs.length ++ " bytes>"))
          ∈ buildRow cols rowIn) := by
  refine ⟨rfl, ?_, ?_⟩
  · intro row hrow p hp
    obtain ⟨r0, -, rfl⟩ := List.mem_map.mp hrow
    obtain ⟨q, -, rfl⟩ := List.mem_map.mp hp
    exact convertCell_not_bytes q.2
  · intro rowIn _ c bs hmem
    exact List.mem_map.mpr ⟨(c, PyVal.bytes bs), hmem, rfl⟩

theorem execute_query_rows_no_raw_bytes_witness :
    (execute_query ⟨true, 0⟩
        (.success (some ["data"]) [[PyVal.bytes (List.replicate 12 0)]] 0) .ok).1
      = QueryResult.Rows ["data"]
          [[("data", PyVal.str "<binary data, 12 bytes>")]] 1
    ∧ ("data", PyVal.str "<binary data, 12 bytes>")
        ∈ buildRow ["data"] [PyVal.bytes (List.replicate 12 0)] := by
  have h := execute_query_rows_no_raw_bytes ⟨true, 0⟩ ["data"]
    [[PyVal.bytes (List.replicate 12 0)]] 0 .ok
  refine ⟨?_, ?_⟩
  · rw [h.1]; decide
  · have := h.2.2 [PyVal.bytes (List.replicate 12 0)] (by decide) "data"
      (List.replicate 12 0) (by decide)
    simpa using this

/-- Claim C7: on a Rows value with zero rows or zero columns,
`format_table` yields the fixed "No data to display" placeholder; and a
result-producing query with zero matching rows yields
`Rows cols [] 0`, whose formatting is that placeholder. -/
theorem format_table_empty_placeholder :
    (∀ (columns : List String) (rows : List (List (String × PyVal))),
        rows = [] ∨ columns = [] → format_table columns rows = "No data to display")
    ∧ (∀ (conn : Conn) (cols : List String) (rc : Int) (commitOut : CommitOutcome),
        (execute_query conn (.success (some cols) [] rc) commitOut).1
          = QueryResult.Rows cols [] 0
        ∧ format_table cols [] = "No data to display") := by
  constructor
  · intro columns rows h
    rcases h with rfl | rfl
    · rfl
    · simp [format_table]
  · intro conn cols rc commitOut
    exact ⟨rfl, rfl⟩

theorem format_table_empty_placeholder_witness :
    format_table ["id", "name"] [] = "No data to display"
    ∧ (execute_query ⟨true, 0⟩ (.success (some ["id", "name"]) [] 0) .ok).1
        = QueryResult.Rows ["id", "name"] [] 0 :=
  ⟨format_table_empty_placeholder.1 ["id", "name"] [] (Or.inl rfl),
   (format_table_empty_placeholder.2 ⟨true, 0⟩ ["id", "name"] 0 .ok).1⟩

lemma replaceFirstCore_of_prefix_true (s old new : List Char) (h : old.isPrefixOf s = true) :
    replaceFirstCore s old new = new ++ s.drop old.length := by
  cases s with
  | nil => simp only [replaceFirstCore, h, if_true]
  | cons c rest => simp only [replaceFirstCore, h, if_true]

lemma rfindFrom_at_of_true (s pat : List Char) (j : Nat)
    (h : pat.isPrefixOf (s.drop j) = true) : rfindFrom s pat j = some j := by
  cases j with
  | zero =>
    have h0 : pat.isPrefixOf s = true := by simpa using h
    simp [rfindFrom, h0]
  | succ i => simp [rfindFrom, h]

lemma rfindFrom_step_of_false (s pat : List Char) (i : Nat)
    (h : pat.isPrefixOf (s.drop (i + 1)) = false) :
    rfindFrom s pat (i + 1) = rfindFrom s pat i := by
  simp [rfindFrom, h]

lemma pyRfind_of_suffix (s pat : List Char) (hne : pat ≠ [])
    (h : pat.isSuffixOf s = true) : pyRfind s pat = some (s.length - pat.length) := by
  have hsuf : pat <:+ s := by simpa using h
  obtain ⟨t, rfl⟩ := hsuf
  have hpre : pat.isPrefixOf ((t ++ pat).drop t.length) = true := by
    rw [List.drop_left]
    simp
  have hfail : ∀ j, t.length < j → pat.isPrefixOf ((t ++ pat).drop j) = false := by
    intro j hj
    cases hx : pat.isPrefixOf ((t ++ pat).drop j) with
    | false => rfl
    | true =>
      exfalso
      have hx' : pat <+: (t ++ pat).drop j := by simpa using hx
      have hle := List.IsPrefix.length_le hx'
      have hdl : ((t ++ pat).drop j).length = t.length + pat.length - j := by
        simp
      have hplen : 0 < pat.length := List.length_pos.mpr hne
      omega
  have climb : ∀ k, rfindFrom (t ++ pat) pat (t.length + k) = some t.length := by
    intro k
    induction k with
    | zero => simpa using rfindFrom_at_of_true (t ++ pat) pat t.length hpre
    | succ k ih =>
      have hstep : t.length + (k + 1) = (t.length + k) + 1 := by omega
      rw [hstep, rfindFrom_step_of_false _ _ _ (hfail _ (by omega))]
      exact ih
  have hlen : (t ++ pat).length = t.length + pat.length := by simp
  have hgoal := climb pat.length
  rw [pyRfind, hlen, hgoal]
  congr 1
  omega

lemma sanitizeOpen_eq_amended (t : List Char) : sanitizeOpen t = amendedOpen t := by
  unfold sanitizeOpen amendedOpen
  by_cases h1 : sqlFence.isPrefixOf t = true
  · rw [if_pos h1, if_pos h1, replaceFirstCore_of_prefix_true _ _ _ h1, List.nil_append]
  · rw [if_neg h1, if_neg h1]
    by_cases h2 : fence.isPrefixOf t = true
    · rw [if_pos h2, if_pos h2, replaceFirstCore_of_prefix_true _ _ _ h2, List.nil_append]
    · rw [if_neg h2, if_neg h2]

lemma sanitizeClose_eq_amended (u : List Char) : sanitizeClose u = amendedClose u := by
  unfold sanitizeClose amendedClose
  by_cases h : fence.isSuffixOf u = true
  · rw [if_pos h, if_pos h, pyRfind_of_suffix u fence (by decide) h]
  · rw [if_neg h, if_neg h]

lemma sanitizeCore_eq_amended (raw : List Char) :
    sanitizeCore raw = sanitizeAmendedCore raw := by
  unfold sanitizeCore sanitizeAmendedCore
  rw [sanitizeOpen_eq_amended, sanitizeClose_eq_amended]

lemma occursIn_eq_true_iff (pat : List Char) :
    ∀ l : List Char, occursIn pat l = true ↔ ∃ x y, l = x ++ (pat ++ y)
  | [] => by
    constructor
    · intro h
      have h' : pat <+: ([] : List Char) := by simpa [occursIn] using h
      obtain ⟨t, ht⟩ := h'
      exact ⟨[], t, ht.symm⟩
    · rintro ⟨x, y, hxy⟩
      have hx : x = [] ∧ pat ++ y = [] := by
        constructor
        · cases x with
          | nil => rfl
          | cons a x' => simp at hxy
        · cases x with
          | nil => simpa using hxy.symm
          | cons a x' => simp at hxy
      have hp : pat = [] := by
        rcases List.append_eq_nil.mp hx.2 with ⟨h1, -⟩
        exact h1
      simp [occursIn, hp]
  | c :: rest => by
    rw [show occursIn pat (c :: rest)
          = (pat.isPrefixOf (c :: rest) || occursIn pat rest) from rfl,
        Bool.or_eq_true, occursIn_eq_true_iff pat rest]
    constructor
    · rintro (h | ⟨x, y, rfl⟩)
      · have h' : pat <+: c :: rest := by simpa using h
        obtain ⟨t, ht⟩ := h'
        exact ⟨[], t, by simpa using ht.symm⟩
      · exact ⟨c :: x, y, rfl⟩
    · rintro ⟨x, y, hxy⟩
      cases x with
      | nil =>
        left
        have : pat <+: c :: rest := ⟨y, by simpa using hxy.symm⟩
        simpa using this
      | cons d x' =>
        right
        have h2 : rest = x' ++ (pat ++ y) := (List.cons.inj (by simpa using hxy)).2
        exact ⟨x', y, h2⟩

lemma dropTrailingWs_eq_rdropWhile (m : List Char) :
    dropTrailingWs m = List.rdropWhile isPyWs m := rfl

lemma pyStripCore_isInfix (l : List Char) : pyStripCore l <:+: l := by
  have h1 : l.dropWhile isPyWs <:+ l := List.dropWhile_suffix _
  have h2 : pyStripCore l <+: l.dropWhile isPyWs := by
    rw [show pyStripCore l = List.rdropWhile isPyWs (l.dropWhile isPyWs) from rfl]
    exact List.rdropWhile_prefix _ _
  exact List.IsInfix.trans ( List.IsPrefix.isInfix h2) ( List.IsSuffix.isInfix h1)

lemma occursIn_false_mono (pat m l : List Char) (hinf : m <:+: l)
    (h : occursIn pat l = false) : occursIn pat m = false := by
  cases hx : occursIn pat m with
  | false => rfl
  | true =>
    exfalso
    obtain ⟨x, y, rfl⟩ := (occursIn_eq_true_iff pat m).mp hx
    obtain ⟨s, t, rfl⟩ := hinf
    have htrue : occursIn pat (s ++ (x ++ (pat ++ y)) ++ t) = true :=
      (occursIn_eq_true_iff pat _).mpr ⟨s ++ x, y ++ t, by simp⟩
    rw [htrue] at h
    exact Bool.noConfusion h

lemma dropWhile_rdropWhile_dropWhile (l : List Char) :
    List.dropWhile isPyWs (List.rdropWhile isPyWs (List.dropWhile isPyWs l))
      = List.rdropWhile isPyWs (List.dropWhile isPyWs l) := by
  rw [List.dropWhile_eq_self_iff]
  intro hl
  have hpre : List.rdropWhile isPyWs (List.dropWhile isPyWs l) <+: List.dropWhile isPyWs l :=
    List.rdropWhile_prefix _ _
  have hlm : 0 < (List.dropWhile isPyWs l).length :=
    lt_of_lt_of_le hl ( List.IsPrefix.length_le hpre)
  have hget : (List.rdropWhile isPyWs (List.dropWhile isPyWs l)).get ⟨0, hl⟩
      = (List.dropWhile isPyWs l).get ⟨0, hlm⟩ := by
    have hg := List.IsPrefix.getElem hpre hl
    simpa [List.get_eq_getElem] using hg
  rw [hget]
  exact List.dropWhile_get_zero_not isPyWs l hlm

lemma pyStripCore_idem (l : List Char) : pyStripCore (pyStripCore l) = pyStripCore l := by
  show dropTrailingWs ((dropTrailingWs (l.dropWhile isPyWs)).dropWhile isPyWs)
      = dropTrailingWs (l.dropWhile isPyWs)
  rw [dropTrailingWs_eq_rdropWhile, dropTrailingWs_eq_rdropWhile,
    dropWhile_rdropWhile_dropWhile, List.rdropWhile_idempotent]

lemma fence_not_guards_of_no_occurrence (t : List Char) (h : occursIn fence t = false) :
    sqlFence.isPrefixOf t = false ∧ fence.isPrefixOf t = false
      ∧ fence.isSuffixOf t = false := by
  refine ⟨?_, ?_, ?_⟩
  · cases hx : sqlFence.isPrefixOf t with
    | false => rfl
    | true =>
      exfalso
      have hx' : sqlFence <+: t := by simpa using hx
      obtain ⟨r, hr⟩ := hx'
      have : occursIn fence t = true :=
        (occursIn_eq_true_iff fence t).mpr ⟨[], ['s', 'q', 'l'] ++ r, by rw [← hr]; rfl⟩
      rw [this] at h
      exact Bool.noConfusion h
  · cases hx : fence.isPrefixOf t with
    | false => rfl
    | true =>
      exfalso
      have hx' : fence <+: t := by simpa using hx
      obtain ⟨r, hr⟩ := hx'
      have : occursIn fence t = true :=
        (occursIn_eq_true_iff fence t).mpr ⟨[], r, by rw [← hr]; rfl⟩
      rw [this] at h
      exact Bool.noConfusion h
  · cases hx : fence.isSuffixOf t with
    | false => rfl
    | true =>
      exfalso
      have hx' : fence <:+ t := by simpa using hx
      obtain ⟨r, hr⟩ := hx'
      have : occursIn fence t = true :=
        (occursIn_eq_true_iff fence t).mpr ⟨r, [], by rw [← hr]; simp⟩
      rw [this] at h
      exact Bool.noConfusion h

lemma sanitizeCore_of_no_fence (l : List Char) (h : occursIn fence l = false) :
    sanitizeCore l = pyStripCore l := by
  have hstrip : occursIn fence (pyStripCore l) = false :=
    occursIn_false_mono fence _ l (pyStripCore_isInfix l) h
  obtain ⟨h1, h2, h3⟩ := fence_not_guards_of_no_occurrence _ hstrip
  unfold sanitizeCore sanitizeOpen sanitizeClose
  simp [h1, h2, h3]

/-- Claim C3 counterexample: on the input "SELECT 1 ```", which does not
begin with a fenced-code-block opener, the code still removes the
trailing fence ("SELECT 1"), while the claimed description — which
removes a closing fence only when the text begins with an opener —
leaves the input unchanged. -/
theorem sanitize_trailing_fence_counterexample :
    sanitize "SELECT 1 ```" = "SELECT 1"
    ∧ sanitizeClaimed "SELECT 1 ```" = "SELECT 1 ```"
    ∧ sanitize "SELECT 1 ```" ≠ sanitizeClaimed "SELECT 1 ```" := by
  refine ⟨by decide, by decide, by decide⟩

/-- Claim C3 (amended): the sanitizer trims surrounding whitespace,
removes exactly one opening fence when the trimmed text begins with one,
and removes the closing fence at the end whenever the text ends with one
— whether or not an opening fence was found — re-trimming after each
removal; in particular the two concrete examples of the claim hold. -/
theorem sanitize_matches_amended_description :
    (∀ s : String, sanitize s = sanitizeAmended s)
    ∧ sanitize "```sql\nSELECT 1\n```" = "SELECT 1"
    ∧ sanitize "  SELECT 1  " = "SELECT 1" := by
  refine ⟨fun s => congrArg String.mk (sanitizeCore_eq_amended s.data), by decide, by decide⟩

/-- Claim C9 counterexample: "  SELECT 1  " is free of code fences, yet
sanitizing it is not a no-op — the surrounding whitespace is removed. -/
theorem sanitize_fence_free_counterexample :
    occursIn fence ("  SELECT 1  ".data) = false
    ∧ sanitize "  SELECT 1  " = "SELECT 1"
    ∧ sanitize "  SELECT 1  " ≠ "  SELECT 1  " := by
  refine ⟨by decide, by decide, by decide⟩

/-- Claim C9 (amended): on every string free of code fences the
sanitizer only trims surrounding whitespace; hence it is a no-op on
already-trimmed fence-free text, and it is idempotent on all fence-free
text. -/
theorem sanitize_fence_free_trim_idempotent (s : String)
    (h : occursIn fence s.data = false) :
    sanitize s = pyStrip s
    ∧ sanitize (sanitize s) = sanitize s
    ∧ (pyStrip s = s → sanitize s = s) := by
  have hfirst : sanitize s = pyStrip s :=
    congrArg String.mk (sanitizeCore_of_no_fence s.data h)
  refine ⟨hfirst, ?_, fun hs => hfirst.trans hs⟩
  have hdata : (sanitize s).data = sanitizeCore s.data := rfl
  have hc : sanitizeCore s.data = pyStripCore s.data := sanitizeCore_of_no_fence s.data h
  have h3 : occursIn fence (pyStripCore s.data) = false :=
    occursIn_false_mono fence _ _ (pyStripCore_isInfix s.data) h
  show String.mk (sanitizeCore (sanitize s).data) = sanitize s
  rw [hdata, hc, sanitizeCore_of_no_fence _ h3, pyStripCore_idem]
  exact congrArg String.mk hc.symm

theorem sanitize_fence_free_trim_idempotent_witness :
    sanitize "SELECT 1" = "SELECT 1"
    ∧ sanitize (sanitize "SELECT 1") = sanitize "SELECT 1" :=
  ⟨(sanitize_fence_free_trim_idempotent "SELECT 1" (by decide)).2.2 (by decide),
   (sanitize_fence_free_trim_idempotent "SELECT 1" (by decide)).2.1⟩

lemma get_schema_factors (db : DB) :
    get_schema_for_ollama db = build_description (introspect db) := by
  unfold get_schema_for_ollama build_description introspect
  rw [List.map_map]
  rfl

/-- Claim C5: the schema description is a pure function of the
introspected snapshot (names, structures, row counts, database name):
any two database states with equal introspection results — in
particular, the same unchanged database introspected twice — produce the
identical text block. -/
theorem schema_description_pure_function (db1 db2 : DB)
    (h : introspect db1 = introspect db2) :
    get_schema_for_ollama db1 = get_schema_for_ollama db2 := by
  rw [get_schema_factors, get_schema_factors, h]

/-- A two-table shop database; the second entry is SQLite's internal
`sqlite_sequence` bookkeeping table. -/
def dbA : DB :=
  { basename := "shop.db",
    tables :=
      [⟨"users", .ok [⟨0, "id", "INTEGER", 0, Option.none, 1⟩,
                      ⟨1, "name", "TEXT", 1, Option.none, 0⟩] [], 2⟩,
       ⟨"sqlite_sequence", .ok [] [], 1⟩] }

/-- The same database without the internal bookkeeping table. -/
def dbB : DB :=
  { basename := "shop.db",
    tables :=
      [⟨"users", .ok [⟨0, "id", "INTEGER", 0, Option.none, 1⟩,
                      ⟨1, "name", "TEXT", 1, Option.none, 0⟩] [], 2⟩] }

theorem schema_description_pure_function_witness :
    get_schema_for_ollama dbA = get_schema_for_ollama dbB :=
  schema_description_pure_function dbA dbB (by decide)

/-- A database whose first user table is locked: every query touching
it raises — the PRAGMA pair of `get_table_structure` (caught there) and
the `SELECT COUNT(*)` of `get_schema_for_ollama` (uncaught). -/
def dbD : DBExc :=
  { basename := "shop.db",
    tables :=
      [⟨"broken", .raises "database table is locked", .raises "database table is locked"⟩,
       ⟨"orders", .ok [⟨0, "id", "INTEGER", 0, Option.none, 1⟩] [], .ok 3⟩] }

/-- Claim C6: the per-table except handler does what the claim says —
the failing table degrades to an empty structure with a printed warning
— but the claim's continuation conclusion fails in the code: the
unguarded `SELECT COUNT(*)` on the same failing table raises uncaught,
`get_schema_for_ollama` aborts with that exception, and the table after
the failing one is never reached. -/
theorem count_query_aborts_schema_walk :
    (get_table_structure_exc dbD "broken").1 = ⟨[], []⟩
    ∧ (get_table_structure_exc dbD "broken").2
        = ["Error retrieving structure for table broken: database table is locked"]
    ∧ get_schema_for_ollama_exc dbD = Except.error "database table is locked"
    ∧ get_tables_exc dbD = ["broken", "orders"] := by
  refine ⟨rfl, by decide, rfl, by decide⟩
